import Mathlib

/-!
Shallow embedding of the key-management subsystem of the Fingerprint
repository (src/src/security): the KeyProvider backends
(EnvKeyProvider, EncryptedFileKeyProvider, VaultKeyProvider), the
KeyProviderFactory, the KeyManager facade and the AuditLogger entry
construction.  Timestamps are modelled as natural numbers (a JS Date
compared with <), randomness (crypto.randomUUID, the random IV) is
passed in as explicit parameters, and AES-256-GCM is modelled as an
ideal authenticated cipher: decryption returns the plaintext exactly
when the same master key is used and fails authentication otherwise.
Asynchronous methods are pure state-passing functions; the mutually
recursive getKey and rotateKey pair is given a fuel parameter, with
none standing for a computation that does not terminate within the
given fuel.
-/

deriving instance DecidableEq for Except

namespace Fingerprint

/-- Association list lookup over string keys: models Map.get and
JS-object property lookup (a key is bound at most once by setA). -/
def lookupA {α : Type} (l : List (String × α)) (k : String) : Option α :=
  (l.find? (fun p => p.fst == k)).map Prod.snd

/-- Association list update: models Map.set and JS-object property
assignment (the old binding, if any, is replaced). -/
def setA {α : Type} (l : List (String × α)) (k : String) (v : α) : List (String × α) :=
  l.filter (fun p => p.fst != k) ++ [(k, v)]

/-- Tags: the Record of string to string used in KeyMetadata.tags. -/
abbrev Tags := List (String × String)

/-- Lookup of a tag value. -/
def tagGet (ts : Tags) (k : String) : Option String := lookupA ts k

/-- Setting a tag, as done by a JS object-spread literal where the
later binding overrides the earlier one. -/
def tagSet (ts : Tags) (k v : String) : Tags := setA ts k v

/-- The master key of the encrypted-file provider: either raw bytes
(options.masterKey supplied directly) or the PBKDF2-derived key
deriveKey(password, salt) of KeyProviderFactory, which is modelled
abstractly; the derivation is deterministic in (password, salt) and
distinct passwords give distinct keys. -/
inductive MasterKey
  | raw (bytes : String)
  | derived (password : String) (salt : String)
deriving DecidableEq

/-- Symbolic AES-256-GCM ciphertext: the encryptedData, iv and authTag
triple of a StoredEncryptedKey. The plaintext and the encrypting key
are carried symbolically; only decrypt can observe them. -/
structure EncBlob where
  encKey : MasterKey
  iv : Nat
  plaintext : String
deriving DecidableEq

/-- EncryptedFileKeyProvider.encrypt: AES-GCM with a random iv. -/
def encrypt (mk : MasterKey) (iv : Nat) (data : String) : EncBlob :=
  { encKey := mk, iv := iv, plaintext := data }

/-- EncryptedFileKeyProvider.decrypt: GCM authentication succeeds and
returns the plaintext exactly when the key used to decrypt equals the
key used to encrypt; otherwise decipher.final throws. -/
def decrypt (mk : MasterKey) (b : EncBlob) : Option String :=
  if b.encKey = mk then some b.plaintext else none

/-- KeyMetadata (src KeyProvider.ts). Optional fields are Option;
dates are naturals. -/
structure KeyMetadata where
  keyId : String
  createdAt : Nat
  expiresAt : Option Nat := none
  rotationDue : Option Nat := none
  lastAccessed : Option Nat := none
  accessCount : Option Nat := none
  tags : Option Tags := none
deriving DecidableEq

/-- A TS Partial of KeyMetadata: every field optional. -/
structure KeyMetadataOpt where
  keyId : Option String := none
  createdAt : Option Nat := none
  expiresAt : Option Nat := none
  rotationDue : Option Nat := none
  lastAccessed : Option Nat := none
  accessCount : Option Nat := none
  tags : Option Tags := none
deriving DecidableEq

/-- Spreading a full KeyMetadata into a partial one, as the JS
spread of a metadata object does. -/
def metaToOpt (m : KeyMetadata) : KeyMetadataOpt :=
  { keyId := some m.keyId, createdAt := some m.createdAt, expiresAt := m.expiresAt,
    rotationDue := m.rotationDue, lastAccessed := m.lastAccessed,
    accessCount := m.accessCount, tags := m.tags }

/-- The JS literal with spread used by every storeKey:
fields present in the partial metadata override keyId and createdAt. -/
def mkFullMetadata (kid : String) (now : Nat) (m : KeyMetadataOpt) : KeyMetadata :=
  { keyId := m.keyId.getD kid
    createdAt := m.createdAt.getD now
    expiresAt := m.expiresAt
    rotationDue := m.rotationDue
    lastAccessed := m.lastAccessed
    accessCount := m.accessCount
    tags := m.tags }

/-- The keyId chosen by storeKey: metadata keyId or a fresh
crypto.randomUUID, where the JS truthiness test treats the empty
string as absent. -/
def chooseKeyId (m : KeyMetadataOpt) (fresh : String) : String :=
  match m.keyId with
  | some s => if s = "" then fresh else s
  | none => fresh

/-- KeyProviderOptions with the defaults every provider constructor
applies. -/
structure KeyProviderOptions where
  autoRotate : Bool := false
  enforceExpiration : Bool := true
  auditAccess : Bool := true
deriving DecidableEq

/-- The error kinds thrown by the subsystem (section 7 of the spec):
notFound is the ENOENT-mapped Key-not-found error, expired the
Key-expired error, decryptionFailure the GCM authentication error,
notImplemented the vault placeholder error, metadataNotFound the
vault Key-metadata-not-found error, configurationError the missing
vault URL error of the factory. -/
inductive KeyError
  | notFound (keyId : String)
  | expired (keyId : String)
  | decryptionFailure
  | notImplemented
  | metadataNotFound (keyId : String)
  | configurationError
deriving DecidableEq

/-- The truthiness-guarded date comparison used by the expiration and
rotation checks: the field is present and the date is strictly before
now. -/
def datePassed (d : Option Nat) (now : Nat) : Bool :=
  match d with
  | some e => decide (e < now)
  | none => false

/-! ## EncryptedFileKeyProvider (src EncryptedFileKeyProvider.ts)

One file per key under options.keyDirectory, named keyId.key; the
state maps a keyId to its file content (a StoredEncryptedKey) plus
the in-memory metadataCache.  The keyDirectory path and the fixed
algorithm string aes-256-gcm do not influence the semantics and are
not part of the state. -/

/-- parseInt on the truthy rotationCount tag.  The provider only ever
writes decimal renderings of naturals there, on which parseInt agrees
with toNat; other strings do not arise in the verified claims. -/
def parseIntNat (s : String) : Nat := s.toNat?.getD 0

/-- The JSON envelope of one key file. -/
structure StoredEncryptedKey where
  blob : EncBlob
  metadata : KeyMetadata
deriving DecidableEq

/-- Options of the encrypted-file provider: the shared
KeyProviderOptions plus the master key. -/
structure EncryptedFileOptions where
  opts : KeyProviderOptions := {}
  masterKey : MasterKey
deriving DecidableEq

/-- State of one EncryptedFileKeyProvider instance: the key files on
disk and the in-memory metadata cache. -/
structure EncryptedFileState where
  files : List (String × StoredEncryptedKey)
  metadataCache : List (String × KeyMetadata)
deriving DecidableEq

/-- EncryptedFileKeyProvider.storeKey: choose a keyId, build the full
metadata, encrypt, write the file and update the cache. It never
throws; iv and fresh are the random bytes and randomUUID draws. -/
def efStoreKey (o : EncryptedFileOptions) (s : EncryptedFileState) (now iv : Nat)
    (fresh : String) (secret : String) (m : KeyMetadataOpt) :
    String × EncryptedFileState :=
  let kid := chooseKeyId m fresh
  let fullMetadata := mkFullMetadata kid now m
  let stored : StoredEncryptedKey := { blob := encrypt o.masterKey iv secret, metadata := fullMetadata }
  (kid, { files := setA s.files kid stored,
          metadataCache := setA s.metadataCache kid fullMetadata })

/-- EncryptedFileKeyProvider.getKeyMetadata: cache first, else read
the file, cache it; Key not found when the file is absent. -/
def efGetKeyMetadata (s : EncryptedFileState) (kid : String) :
    Except KeyError KeyMetadata × EncryptedFileState :=
  match lookupA s.metadataCache kid with
  | some m => (.ok m, s)
  | none =>
    match lookupA s.files kid with
    | some stored =>
      (.ok stored.metadata,
       { s with metadataCache := setA s.metadataCache kid stored.metadata })
    | none => (.error (.notFound kid), s)

/-- EncryptedFileKeyProvider.updateKeyMetadata: read the file, replace
its metadata, write it back and update the cache. -/
def efUpdateKeyMetadata (s : EncryptedFileState) (kid : String) (m : KeyMetadata) :
    Except KeyError Unit × EncryptedFileState :=
  match lookupA s.files kid with
  | some stored =>
    (.ok (), { files := setA s.files kid { stored with metadata := m },
               metadataCache := setA s.metadataCache kid m })
  | none => (.error (.notFound kid), s)

mutual

/-- EncryptedFileKeyProvider.getKey.  Read the file (ENOENT becomes
the Key-not-found error), check expiration, check the auto-rotation
policy (rotating and then re-reading the same keyId), persist the
lastAccessed and accessCount update when auditAccess is on, and only
then decrypt.  Errors thrown by the nested rotateKey carry no ENOENT
code and are rethrown unchanged by the catch block.  The result none
means the computation did not finish within fuel steps. -/
def efGetKey (fuel : Nat) (o : EncryptedFileOptions) (s : EncryptedFileState)
    (now iv : Nat) (fresh : String) (kid : String) :
    Option (Except KeyError String × EncryptedFileState) :=
  match fuel with
  | 0 => none
  | fuel + 1 =>
    match lookupA s.files kid with
    | none => some (.error (.notFound kid), s)
    | some stored =>
      if o.opts.enforceExpiration && datePassed stored.metadata.expiresAt now then
        some (.error (.expired kid), s)
      else if o.opts.autoRotate && datePassed stored.metadata.rotationDue now then
        match efRotateKey fuel o s now iv fresh kid with
        | none => none
        | some (.error e, s₁) => some (.error e, s₁)
        | some (.ok _, s₁) => efGetKey fuel o s₁ now iv fresh kid
      else
        let s₁ :=
          if o.opts.auditAccess then
            let meta₁ := { stored.metadata with
                           lastAccessed := some now,
                           accessCount := some (stored.metadata.accessCount.getD 0 + 1) }
            { files := setA s.files kid { stored with metadata := meta₁ },
              metadataCache := setA s.metadataCache kid meta₁ }
          else s
        match decrypt o.masterKey stored.blob with
        | some plain => some (.ok plain, s₁)
        | none => some (.error .decryptionFailure, s₁)

/-- EncryptedFileKeyProvider.rotateKey: read the current secret and
metadata, store it again under keyId-rotationCount with the
rotationCount and previousKeyId tags, then mark the old metadata with
the rotated, rotatedAt and rotatedTo tags. -/
def efRotateKey (fuel : Nat) (o : EncryptedFileOptions) (s : EncryptedFileState)
    (now iv : Nat) (fresh : String) (kid : String) :
    Option (Except KeyError String × EncryptedFileState) :=
  match fuel with
  | 0 => none
  | fuel + 1 =>
    match efGetKey fuel o s now iv fresh kid with
    | none => none
    | some (.error e, s₁) => some (.error e, s₁)
    | some (.ok existingKey, s₁) =>
      match efGetKeyMetadata s₁ kid with
      | (.error e, s₂) => some (.error e, s₂)
      | (.ok existingMeta, s₂) =>
        let rotationCount :=
          (match tagGet (existingMeta.tags.getD []) "rotationCount" with
           | some rc => if rc = "" then 0 else parseIntNat rc
           | none => 0) + 1
        let newKeyId := kid ++ "-" ++ toString rotationCount
        let baseTags := existingMeta.tags.getD []
        let newTags := tagSet (tagSet baseTags "rotationCount" (toString rotationCount))
                              "previousKeyId" kid
        let (_, s₃) := efStoreKey o s₂ now iv fresh existingKey
          { keyId := some newKeyId, createdAt := some now, tags := some newTags }
        match efGetKeyMetadata s₃ kid with
        | (.error e, s₄) => some (.error e, s₄)
        | (.ok oldMetadata, s₄) =>
          let oldTags := oldMetadata.tags.getD []
          let rotatedTags :=
            tagSet (tagSet (tagSet oldTags "rotated" "true") "rotatedAt" (toString now))
                   "rotatedTo" newKeyId
          match efUpdateKeyMetadata s₄ kid { oldMetadata with tags := some rotatedTags } with
          | (.error e, s₅) => some (.error e, s₅)
          | (.ok _, s₅) => some (.ok newKeyId, s₅)

end

/-! ## EnvKeyProvider (src EnvKeyProvider.ts)

Secrets live in the process environment table under names
varNamespace ++ keyId (the keyPrefix of the source, default KEY_),
mirrored by the in-memory keyMap and metadataMap.  The claims
quantify over arbitrary provider states, which subsumes the
constructor seeding loadKeysFromEnv. -/

/-- Configuration of an EnvKeyProvider instance: the shared options
and the environment-variable namespace (keyPrefix in the source). -/
structure EnvProviderConfig where
  opts : KeyProviderOptions := {}
  varNamespace : String := "KEY_"
deriving DecidableEq

/-- State of one EnvKeyProvider instance together with the process
environment it mutates. -/
structure EnvState where
  env : List (String × String)
  keyMap : List (String × String)
  metadataMap : List (String × KeyMetadata)
deriving DecidableEq

/-- A process.env read with the JS truthiness test: an unset variable
and one set to the empty string both count as absent. -/
def envLookup (s : EnvState) (name : String) : Option String :=
  match lookupA s.env name with
  | some v => if v = "" then none else some v
  | none => none

/-- EnvKeyProvider.storeKey: set the environment variable, the keyMap
entry and the metadataMap entry; never throws. -/
def envStoreKey (c : EnvProviderConfig) (s : EnvState) (now : Nat)
    (fresh : String) (secret : String) (m : KeyMetadataOpt) : String × EnvState :=
  let kid := chooseKeyId m fresh
  let fullMetadata := mkFullMetadata kid now m
  (kid, { env := setA s.env (c.varNamespace ++ kid) secret,
          keyMap := setA s.keyMap kid secret,
          metadataMap := setA s.metadataMap kid fullMetadata })

/-- EnvKeyProvider.getKeyMetadata: return the cached metadata, or for
a key only present in the environment create a fresh record holding
just keyId and createdAt; Key not found otherwise. -/
def envGetKeyMetadata (c : EnvProviderConfig) (s : EnvState) (now : Nat)
    (kid : String) : Except KeyError KeyMetadata × EnvState :=
  match lookupA s.metadataMap kid with
  | some m => (.ok m, s)
  | none =>
    match envLookup s (c.varNamespace ++ kid) with
    | none => (.error (.notFound kid), s)
    | some _ =>
      let m : KeyMetadata := { keyId := kid, createdAt := now }
      (.ok m, { s with metadataMap := setA s.metadataMap kid m })

mutual

/-- EnvKeyProvider.getKey.  A cache miss re-checks the live
environment and seeds keyMap and metadataMap (with accessCount 0);
then the metadata is read, expiration is enforced, the auto-rotation
policy may fire (the code then falls through, updates the access
fields on the metadata object it read before the rotation and stores
that stale object back), and the value of the keyMap entry is
returned.  none is non-termination within fuel. -/
def envGetKey (fuel : Nat) (c : EnvProviderConfig) (s : EnvState) (now : Nat)
    (fresh : String) (kid : String) : Option (Except KeyError String × EnvState) :=
  match fuel with
  | 0 => none
  | fuel + 1 =>
    let loaded : Except KeyError EnvState :=
      if (lookupA s.keyMap kid).isSome then .ok s
      else
        match envLookup s (c.varNamespace ++ kid) with
        | none => .error (.notFound kid)
        | some envKey =>
          let s₁ := { s with keyMap := setA s.keyMap kid envKey }
          let seeded : KeyMetadata := { keyId := kid, createdAt := now, accessCount := some 0 }
          if (lookupA s₁.metadataMap kid).isSome then .ok s₁
          else .ok { s₁ with metadataMap := setA s₁.metadataMap kid seeded }
    match loaded with
    | .error e => some (.error e, s)
    | .ok s₁ =>
      match envGetKeyMetadata c s₁ now kid with
      | (.error e, s₂) => some (.error e, s₂)
      | (.ok metadata, s₂) =>
        if c.opts.enforceExpiration && datePassed metadata.expiresAt now then
          some (.error (.expired kid), s₂)
        else
          let finish : EnvState → Option (Except KeyError String × EnvState) := fun s₃ =>
            let staleAudit := { metadata with
                                lastAccessed := some now,
                                accessCount := some (metadata.accessCount.getD 0 + 1) }
            let s₄ :=
              if c.opts.auditAccess then
                { s₃ with metadataMap := setA s₃.metadataMap kid staleAudit }
              else s₃
            some (.ok ((lookupA s₄.keyMap kid).getD ""), s₄)
          if c.opts.autoRotate && datePassed metadata.rotationDue now then
            match envRotateKey fuel c s₂ now fresh kid with
            | none => none
            | some (.error e, s₃) => some (.error e, s₃)
            | some (.ok _, s₃) => finish s₃
          else finish s₂

/-- EnvKeyProvider.rotateKey: read the current secret and metadata,
call storeKey with the spread of the full existing metadata (so the
caller-visible keyId of the stored copy is the old keyId), then
overwrite the metadataMap entry with the existing metadata plus the
rotated, rotatedAt and rotatedTo tags. -/
def envRotateKey (fuel : Nat) (c : EnvProviderConfig) (s : EnvState) (now : Nat)
    (fresh : String) (kid : String) : Option (Except KeyError String × EnvState) :=
  match fuel with
  | 0 => none
  | fuel + 1 =>
    match envGetKey fuel c s now fresh kid with
    | none => none
    | some (.error e, s₁) => some (.error e, s₁)
    | some (.ok existingKey, s₁) =>
      match envGetKeyMetadata c s₁ now kid with
      | (.error e, s₂) => some (.error e, s₂)
      | (.ok existingMeta, s₂) =>
        let rotationCount :=
          (match tagGet (existingMeta.tags.getD []) "rotationCount" with
           | some rc => if rc = "" then 0 else parseIntNat rc
           | none => 0) + 1
        let baseTags := existingMeta.tags.getD []
        let storeMeta := { metaToOpt existingMeta with
                           createdAt := some now,
                           tags := some (tagSet (tagSet baseTags "rotationCount"
                                     (toString rotationCount)) "previousKeyId" kid) }
        let (newKeyId, s₃) := envStoreKey c s₂ now fresh existingKey storeMeta
        let rotatedTags :=
          tagSet (tagSet (tagSet baseTags "rotated" "true") "rotatedAt" (toString now))
                 "rotatedTo" newKeyId
        let markedMeta := { existingMeta with tags := some rotatedTags }
        let s₄ := { s₃ with metadataMap := setA s₃.metadataMap kid markedMeta }
        some (.ok newKeyId, s₄)

end

/-! ## VaultKeyProvider (src VaultKeyProvider.ts)

The placeholder vault backend: getKey always throws the
placeholder-implementation error, storeKey only records metadata in
the local cache, rotateKey returns a fresh UUID without touching any
state, getKeyMetadata serves the cache or throws. -/

/-- State of the vault provider stub: only its metadataCache. -/
structure VaultState where
  metadataCache : List (String × KeyMetadata)
deriving DecidableEq

/-- VaultKeyProvider.getKey: unconditionally throws the placeholder
error. -/
def vaultGetKey (s : VaultState) (kid : String) : Except KeyError String × VaultState :=
  (.error .notImplemented, s)

/-- VaultKeyProvider.storeKey: chooses a keyId, caches the full
metadata and returns the id; the secret itself is not stored
anywhere. -/
def vaultStoreKey (s : VaultState) (now : Nat) (fresh : String)
    (secret : String) (m : KeyMetadataOpt) : String × VaultState :=
  let kid := chooseKeyId m fresh
  let fullMetadata := mkFullMetadata kid now m
  (kid, { metadataCache := setA s.metadataCache kid fullMetadata })

/-- VaultKeyProvider.rotateKey: returns a fresh UUID and changes
nothing. -/
def vaultRotateKey (s : VaultState) (fresh : String) (kid : String) :
    String × VaultState := (fresh, s)

/-- VaultKeyProvider.getKeyMetadata: cache hit or the
Key-metadata-not-found error. -/
def vaultGetKeyMetadata (s : VaultState) (kid : String) :
    Except KeyError KeyMetadata × VaultState :=
  match lookupA s.metadataCache kid with
  | some m => (.ok m, s)
  | none => (.error (.metadataNotFound kid), s)

/-! ## KeyProviderFactory (src KeyProviderFactory.ts) -/

/-- The provider kinds of the factory. -/
inductive KeyProviderType
  | env
  | encryptedFile
  | vault
deriving DecidableEq

/-- The vaultOptions configuration record (authToken and the path
namespace are carried for fidelity; only vaultUrl is consulted by the
factory). -/
structure VaultOptionsCfg where
  vaultUrl : String := ""
  authToken : Option String := none
  pathNamespace : Option String := none
deriving DecidableEq

/-- The encryptedFileOptions configuration record as updateConfig
merges it (all fields optional). -/
structure EncryptedFileOptionsCfg where
  keyDirectory : Option String := none
  masterKey : Option String := none
  algorithm : Option String := none
deriving DecidableEq

/-- KeyProviderFactoryConfig. -/
structure KeyProviderFactoryConfig where
  defaultProviderType : KeyProviderType := .env
  masterKeyPassword : Option String := none
  masterKeySalt : Option String := none
  envOptions : Option KeyProviderOptions := none
  encryptedFileOptions : Option EncryptedFileOptionsCfg := none
  vaultOptions : Option VaultOptionsCfg := none
deriving DecidableEq

/-- A Partial of KeyProviderFactoryConfig, the argument of
updateConfig. -/
structure FactoryConfigUpdate where
  defaultProviderType : Option KeyProviderType := none
  masterKeyPassword : Option String := none
  masterKeySalt : Option String := none
  envOptions : Option KeyProviderOptions := none
  encryptedFileOptions : Option EncryptedFileOptionsCfg := none
  vaultOptions : Option VaultOptionsCfg := none
deriving DecidableEq

/-- Field-wise merge of two optional encryptedFileOptions objects, as
the object spread in updateConfig performs; the result is always an
object. -/
def mergeEFOpts (o n : Option EncryptedFileOptionsCfg) : EncryptedFileOptionsCfg :=
  let a := o.getD {}
  let b := n.getD {}
  { keyDirectory := (b.keyDirectory).orElse (fun _ => a.keyDirectory)
    masterKey := (b.masterKey).orElse (fun _ => a.masterKey)
    algorithm := (b.algorithm).orElse (fun _ => a.algorithm) }

/-- Field-wise merge of two optional vaultOptions objects. -/
def mergeVaultOpts (o n : Option VaultOptionsCfg) : VaultOptionsCfg :=
  match n with
  | some b =>
    { vaultUrl := b.vaultUrl
      authToken := (b.authToken).orElse (fun _ => (o.getD {}).authToken)
      pathNamespace := (b.pathNamespace).orElse (fun _ => (o.getD {}).pathNamespace) }
  | none => o.getD {}

/-- KeyProviderFactory.updateConfig on the configuration alone: the
top-level spread lets every field present in the update override, and
the three nested option objects are merged field-wise. -/
def mergeConfig (c : KeyProviderFactoryConfig) (u : FactoryConfigUpdate) :
    KeyProviderFactoryConfig :=
  { defaultProviderType := (u.defaultProviderType).getD c.defaultProviderType
    masterKeyPassword := (u.masterKeyPassword).orElse (fun _ => c.masterKeyPassword)
    masterKeySalt := (u.masterKeySalt).orElse (fun _ => c.masterKeySalt)
    envOptions := some ((u.envOptions).getD ((c.envOptions).getD {}))
    encryptedFileOptions := some (mergeEFOpts c.encryptedFileOptions u.encryptedFileOptions)
    vaultOptions := some (mergeVaultOpts c.vaultOptions u.vaultOptions) }

/-- A constructed backend instance, tagged with its kind and the
factory configuration in force when it was built (construction reads
only the current configuration). -/
structure ProviderInstance where
  kind : KeyProviderType
  builtFrom : KeyProviderFactoryConfig
deriving DecidableEq

/-- The factory singleton state: current configuration and the cache
of already constructed providers, one per kind. -/
structure FactoryState where
  config : KeyProviderFactoryConfig
  providers : List (KeyProviderType × ProviderInstance)
deriving DecidableEq

/-- Association lookup keyed by provider kind. -/
def lookupP (l : List (KeyProviderType × ProviderInstance)) (k : KeyProviderType) :
    Option ProviderInstance :=
  (l.find? (fun p => decide (p.fst = k))).map Prod.snd

/-- Association update keyed by provider kind. -/
def setP (l : List (KeyProviderType × ProviderInstance)) (k : KeyProviderType)
    (v : ProviderInstance) : List (KeyProviderType × ProviderInstance) :=
  l.filter (fun p => !(decide (p.fst = k))) ++ [(k, v)]

/-- KeyProviderFactory.updateConfig: replaces the configuration by
the merge and touches nothing else. -/
def updateConfig (s : FactoryState) (u : FactoryConfigUpdate) : FactoryState :=
  { s with config := mergeConfig s.config u }

/-- KeyProviderFactory.getProvider: a cached instance is returned as
is; otherwise one is built from the current configuration and cached,
except that the vault kind without a truthy vaultUrl throws the
configuration error. -/
def getProvider (s : FactoryState) (t : KeyProviderType) :
    Except KeyError ProviderInstance × FactoryState :=
  match lookupP s.providers t with
  | some p => (.ok p, s)
  | none =>
    match t with
    | .vault =>
      if ((s.config.vaultOptions).getD {}).vaultUrl = "" then
        (.error .configurationError, s)
      else
        let p : ProviderInstance := { kind := t, builtFrom := s.config }
        (.ok p, { s with providers := setP s.providers t p })
    | _ =>
      let p : ProviderInstance := { kind := t, builtFrom := s.config }
      (.ok p, { s with providers := setP s.providers t p })

/-! ## KeyManager (src KeyManager.ts) -/

/-- The closed key-type enumeration. -/
inductive KeyType
  | deployment
  | wallet
  | signing
  | api
deriving DecidableEq

/-- The string value of a KeyType (its TS enum value). -/
def keyTypeString : KeyType → String
  | .deployment => "deployment"
  | .wallet => "wallet"
  | .signing => "signing"
  | .api => "api"

/-- Association lookup keyed by key type. -/
def lookupT (l : List (KeyType × KeyProviderType)) (k : KeyType) : Option KeyProviderType :=
  (l.find? (fun p => decide (p.fst = k))).map Prod.snd

/-- Association update keyed by key type. -/
def setT (l : List (KeyType × KeyProviderType)) (k : KeyType) (v : KeyProviderType) :
    List (KeyType × KeyProviderType) :=
  l.filter (fun p => !(decide (p.fst = k))) ++ [(k, v)]

/-- The KeyManager state: the KeyType to backend-kind bindings and
the factory it forwards configuration to. -/
structure KeyManagerState where
  bindings : List (KeyType × KeyProviderType)
  factory : FactoryState
deriving DecidableEq

/-- The bindings set by the private KeyManager constructor. -/
def keyManagerDefaultBindings : List (KeyType × KeyProviderType) :=
  [(.deployment, .env), (.wallet, .encryptedFile), (.signing, .encryptedFile), (.api, .env)]

/-- The process-environment values KeyManager.initialize reads. -/
structure ProcessEnvironment where
  vaultUrl : Option String := none
  vaultToken : Option String := none
  masterKeyPassword : Option String := none
  keyDirectory : Option String := none
  masterKey : Option String := none
  algorithm : Option String := none
deriving DecidableEq

/-- The JS a or b on strings: the left value unless it is absent or
empty. -/
def jsOr (v : Option String) (d : String) : String :=
  match v with
  | some s => if s = "" then d else s
  | none => d

/-- KeyManager.initialize(masterKeyPassword, environment).  In
production the wallet and signing bindings move to the vault kind and
the factory receives the vaultOptions read from the process
environment; otherwise the factory receives masterKeyPassword and
encryptedFileOptions read from the process environment.  Note that
the masterKeyPassword argument is never consulted: the non-production
branch forwards the MASTER_KEY_PASSWORD environment variable (or the
empty string) instead. -/
def keyManagerInitialize (s : KeyManagerState) (masterKeyPassword : Option String)
    (environment : String) (penv : ProcessEnvironment) : KeyManagerState :=
  if environment = "production" then
    let vaultCfg : VaultOptionsCfg :=
      { vaultUrl := (penv.vaultUrl).getD ""
        authToken := penv.vaultToken
        pathNamespace := some "fingerprint/" }
    { bindings := setT (setT s.bindings .wallet .vault) .signing .vault
      factory := updateConfig s.factory { vaultOptions := some vaultCfg } }
  else
    let efCfg : EncryptedFileOptionsCfg :=
      { keyDirectory := some (jsOr penv.keyDirectory "./keys")
        masterKey := some ((penv.masterKey).getD "")
        algorithm := some ((penv.algorithm).getD "") }
    { bindings := s.bindings
      factory := updateConfig s.factory
        { masterKeyPassword := some ((penv.masterKeyPassword).getD "")
          encryptedFileOptions := some efCfg } }

/-- KeyManager.setProviderForKeyType. -/
def setProviderForKeyType (s : KeyManagerState) (t : KeyType) (p : KeyProviderType) :
    KeyManagerState :=
  { s with bindings := setT s.bindings t p }

/-- The kind KeyManager resolves for a key type (defaulting to the
env kind when unbound). -/
def providerTypeFor (s : KeyManagerState) (t : KeyType) : KeyProviderType :=
  (lookupT s.bindings t).getD .env

/-! ## AuditLogger (src AuditLogger.ts)

Only the entry construction is modelled: the sinks serialize the
entry they are handed and the claims concern what data reaches them.
The optional stackTrace detail attached for warning-and-above levels
when includeStackTrace is on is runtime call-stack text that does not
depend on any key material and is left out of the model. -/

/-- LogLevel. -/
inductive LogLevel
  | debug
  | info
  | warning
  | error
  | critical
deriving DecidableEq

/-- The TS enum string of a LogLevel. -/
def logLevelString : LogLevel → String
  | .debug => "debug"
  | .info => "info"
  | .warning => "warning"
  | .error => "error"
  | .critical => "critical"

/-- AuditLoggerOptions (defaults as in a non-production Node
environment; the claims do not depend on them). -/
structure AuditLoggerOptions where
  enableConsoleLogging : Bool := true
  enableFileLogging : Bool := false
  logFilePath : String := "./logs/audit.log"
  enableRemoteLogging : Bool := false
  remoteLogEndpoint : Option String := none
  remoteLogApiKey : Option String := none
  minLogLevel : LogLevel := .info
  includeStackTrace : Bool := true
  logRotationSizeMB : Nat := 10
  encryptLogs : Bool := false
  encryptionKeyId : Option String := none
deriving DecidableEq

/-- The redacted view of the options that updateOptions (and the
constructor) place into a configuration-change entry: a truthy
remoteLogApiKey is replaced by the fixed placeholder, a falsy one by
undefined. -/
def redactedApiKey (o : AuditLoggerOptions) : Option String :=
  match o.remoteLogApiKey with
  | some k => if k = "" then none else some "[REDACTED]"
  | none => none

/-- The options object as echoed into the configuration-change audit
entry. -/
def redactOptions (o : AuditLoggerOptions) : AuditLoggerOptions :=
  { o with remoteLogApiKey := redactedApiKey o }

/-- AuditLogEntry; details is the flat string map the convenience
wrappers produce. -/
structure AuditLogEntry where
  timestamp : String
  level : LogLevel
  eventType : String
  operation : String
  actor : String
  target : Option String := none
  result : String
  details : List (String × String) := []
  sessionId : String
  source : String
deriving DecidableEq

/-- AuditLogger.logKeyAccess: the entry it builds via log, with the
key-access event type, INFO or WARNING by success, the keyId as
target and the keyType as the sole detail. -/
def logKeyAccessEntry (timestamp sessionId source : String) (keyType : KeyType)
    (keyId actor operation : String) (success : Bool) : AuditLogEntry :=
  { timestamp := timestamp
    level := if success then .info else .warning
    eventType := "key_access"
    operation := operation
    actor := actor
    target := some keyId
    result := if success then "success" else "failure"
    details := [("keyType", keyTypeString keyType)]
    sessionId := sessionId
    source := source }

/-- Every string datum a sink serializes out of an entry: the field
values, the enum renderings and the detail keys and values.  A secret
absent from all of them is absent from the serialized entry. -/
def entryStrings (e : AuditLogEntry) : List String :=
  [e.timestamp, logLevelString e.level, e.eventType, e.operation, e.actor]
    ++ (match e.target with | some t => [t] | none => [])
    ++ [e.result]
    ++ e.details.map Prod.fst
    ++ e.details.map Prod.snd
    ++ [e.sessionId, e.source]

/-- Whether the character list n occurs at the start of h. -/
def charsStart : List Char → List Char → Bool
  | [], _ => true
  | _ :: _, [] => false
  | a :: as, b :: bs => (a == b) && charsStart as bs

/-- Whether the character list n occurs contiguously anywhere in h. -/
def charsOccur (n : List Char) : List Char → Bool
  | [] => charsStart n []
  | b :: bs => charsStart n (b :: bs) || charsOccur n bs

/-- Substring occurrence on strings. -/
def occursIn (needle hay : String) : Bool := charsOccur needle.data hay.data

/-! ## Concrete fixtures used by counterexample and witness theorems -/

/-- The default env-provider configuration (all option defaults). -/
def defaultEnvCfg : EnvProviderConfig := {}

/-- An env-provider configuration with the auto-rotation policy
enabled. -/
def arCfg : EnvProviderConfig := { opts := { autoRotate := true } }

/-- Encrypted-file options with auto-rotation enabled and a raw
master key. -/
def arFileOpts : EncryptedFileOptions := { opts := { autoRotate := true }, masterKey := .raw "mk" }

/-- Metadata of a key whose rotation came due at time 5. -/
def arMeta : KeyMetadata := { keyId := "k1", createdAt := 0, rotationDue := some 5 }

/-- An env-provider state holding the rotation-due key k1. -/
def arEnvState : EnvState :=
  { env := [("KEY_k1", "sek")], keyMap := [("k1", "sek")], metadataMap := [("k1", arMeta)] }

/-- An encrypted-file state holding the rotation-due key k1. -/
def arFileState : EncryptedFileState :=
  { files := [("k1", { blob := encrypt (.raw "mk") 7 "sek", metadata := arMeta })],
    metadataCache := [] }

/-- An env-provider state holding a plain key k1 with no tags. -/
def plainEnvState : EnvState :=
  { env := [("KEY_k1", "sek")], keyMap := [("k1", "sek")],
    metadataMap := [("k1", { keyId := "k1", createdAt := 0 })] }

/-- The empty env-provider state. -/
def emptyEnvState : EnvState := { env := [], keyMap := [], metadataMap := [] }

/-- The empty encrypted-file state. -/
def emptyFileState : EncryptedFileState := { files := [], metadataCache := [] }

/-- The empty vault state. -/
def emptyVaultState : VaultState := { metadataCache := [] }

/-- Caller-supplied metadata naming keyId k1 and nothing else. -/
def m1 : KeyMetadataOpt := { keyId := some "k1" }

/-- Caller-supplied metadata naming keyId k1 with an expiry at
time 5. -/
def m1exp : KeyMetadataOpt := { keyId := some "k1", expiresAt := some 5 }

/-- Encrypted-file options whose master key is derived from the first
password with the default factory salt. -/
def fileOptsPw1 : EncryptedFileOptions :=
  { masterKey := .derived "correct-password" "fingerprint-salt" }

/-- Encrypted-file options whose master key is derived from a second,
different password with the same salt. -/
def fileOptsPw2 : EncryptedFileOptions :=
  { masterKey := .derived "other-password" "fingerprint-salt" }

/-- Env-provider configuration with expiration enforcement turned
off. -/
def noEnfEnvCfg : EnvProviderConfig := { opts := { enforceExpiration := false } }

/-- Encrypted-file options with expiration enforcement turned off. -/
def noEnfFileOpts : EncryptedFileOptions :=
  { opts := { enforceExpiration := false },
    masterKey := .derived "correct-password" "fingerprint-salt" }

/-- A factory state with the default configuration and no providers
constructed yet. -/
def emptyFactory : FactoryState := { config := {}, providers := [] }

/-- The KeyManager as its private constructor builds it. -/
def defaultKeyManager : KeyManagerState :=
  { bindings := keyManagerDefaultBindings, factory := emptyFactory }

/-- A process environment with none of the consulted variables set. -/
def emptyProcEnv : ProcessEnvironment := {}

/-- An env-kind provider instance built from the default factory
configuration. -/
def cachedEnvInstance : ProviderInstance := { kind := .env, builtFrom := {} }

/-- A factory state that has already constructed and cached the env
provider. -/
def factoryWithEnv : FactoryState := { config := {}, providers := [(.env, cachedEnvInstance)] }

/-- A configuration update carrying a new master password. -/
def cfgUpdate1 : FactoryConfigUpdate := { masterKeyPassword := some "new-password" }

/-! ## Lemmas -/

/-- find? of the key predicate skips the entries removed by the setA
filter when the sought key differs from the filtered one. -/
theorem find?_filter_ne {α : Type} (l : List (String × α)) (k k' : String) (h : k' ≠ k) :
    (l.filter (fun p => p.fst != k)).find? (fun p => p.fst == k') =
      l.find? (fun p => p.fst == k') := by
  induction l with
  | nil => rfl
  | cons a t ih =>
    by_cases hk : a.fst = k
    · have hne : (a.fst == k') = false := by
        rw [hk]
        exact beq_eq_false_iff_ne.mpr fun hc => h hc.symm
      rw [List.filter_cons_of_neg (by simp [hk]), List.find?_cons_of_neg _ (by simp [hne]), ih]
    · rw [List.filter_cons_of_pos (by simp [hk])]
      by_cases hk' : a.fst = k'
      · rw [List.find?_cons_of_pos _ (by simp [hk']), List.find?_cons_of_pos _ (by simp [hk'])]
      · rw [List.find?_cons_of_neg _ (by simp [hk']), List.find?_cons_of_neg _ (by simp [hk']), ih]

/-- Lookup after update on the string-keyed association lists. -/
theorem lookupA_setA {α : Type} (l : List (String × α)) (k k' : String) (v : α) :
    lookupA (setA l k v) k' = if k' = k then some v else lookupA l k' := by
  unfold lookupA setA
  rw [List.find?_append]
  by_cases h : k' = k
  · subst h
    have hnone : (l.filter (fun p => p.fst != k')).find? (fun p => p.fst == k') = none := by
      rw [List.find?_eq_none]
      intro x hx
      have hx2 := (List.mem_filter.mp hx).2
      simp only [bne_iff_ne, ne_eq, decide_not] at hx2
      simp [hx2]
    rw [hnone]
    simp [List.find?]
  · rw [find?_filter_ne l k k' h]
    have hkk : (k == k') = false := beq_eq_false_iff_ne.mpr fun hc => h hc.symm
    have hone : ([(k, v)].find? (fun p => p.fst == k')) = none := by
      simp [List.find?, hkk]
    rw [hone]
    simp [h]

theorem lookupA_setA_self {α : Type} (l : List (String × α)) (k : String) (v : α) :
    lookupA (setA l k v) k = some v := by
  simp [lookupA_setA]

theorem lookupA_setA_ne {α : Type} (l : List (String × α)) (k k' : String) (v : α)
    (h : k' ≠ k) : lookupA (setA l k v) k' = lookupA l k' := by
  simp [lookupA_setA, h]

/-- getKey immediately after storeKey on the env provider: the
Key-expired error when the stored metadata is past expiry under
enforcement, the stored secret otherwise, provided the auto-rotation
policy does not fire at read time. -/
theorem envGetKey_after_storeKey (c : EnvProviderConfig) (s : EnvState)
    (now₁ now₂ : Nat) (fr₁ fr₂ secret : String) (m : KeyMetadataOpt)
    (hrot : (c.opts.autoRotate && datePassed m.rotationDue now₂) = false) :
    (envGetKey 1 c (envStoreKey c s now₁ fr₁ secret m).2 now₂ fr₂
       (envStoreKey c s now₁ fr₁ secret m).1).map Prod.fst =
      some (if c.opts.enforceExpiration && datePassed m.expiresAt now₂
            then .error (.expired (envStoreKey c s now₁ fr₁ secret m).1)
            else .ok secret) := by
  by_cases hexp : (c.opts.enforceExpiration && datePassed m.expiresAt now₂) = true
  · simp [envGetKey, envStoreKey, envGetKeyMetadata, mkFullMetadata,
          lookupA_setA_self, hexp]
  · by_cases haud : c.opts.auditAccess = true <;>
      simp [envGetKey, envStoreKey, envGetKeyMetadata, mkFullMetadata,
            lookupA_setA_self, hexp, hrot, haud]

/-- getKey immediately after storeKey on the encrypted-file provider:
the Key-expired error when the stored metadata is past expiry under
enforcement, the decrypted stored secret otherwise, provided the
auto-rotation policy does not fire at read time. -/
theorem efGetKey_after_storeKey (o : EncryptedFileOptions) (s : EncryptedFileState)
    (now₁ now₂ iv₁ iv₂ : Nat) (fr₁ fr₂ secret : String) (m : KeyMetadataOpt)
    (hrot : (o.opts.autoRotate && datePassed m.rotationDue now₂) = false) :
    (efGetKey 1 o (efStoreKey o s now₁ iv₁ fr₁ secret m).2 now₂ iv₂ fr₂
       (efStoreKey o s now₁ iv₁ fr₁ secret m).1).map Prod.fst =
      some (if o.opts.enforceExpiration && datePassed m.expiresAt now₂
            then .error (.expired (efStoreKey o s now₁ iv₁ fr₁ secret m).1)
            else .ok secret) := by
  by_cases hexp : (o.opts.enforceExpiration && datePassed m.expiresAt now₂) = true
  · simp [efGetKey, efStoreKey, mkFullMetadata, lookupA_setA_self, hexp]
  · by_cases haud : o.opts.auditAccess = true <;>
      simp [efGetKey, efStoreKey, mkFullMetadata, encrypt, decrypt,
            lookupA_setA_self, hexp, hrot, haud]

/-! ## Claims -/

/-- C1, counterexample: the round-trip does not hold for every
backend and every metadata.  The vault backend stores the metadata of
s3cret under k1 but its getKey throws the placeholder error rather
than returning s3cret; and the env backend with the default options
rejects a key stored with an already-past expiresAt with the
Key-expired error instead of returning the secret. -/
theorem c1_counterexample :
    ((vaultGetKey (vaultStoreKey emptyVaultState 10 "u1" "s3cret" m1).2
        (vaultStoreKey emptyVaultState 10 "u1" "s3cret" m1).1).fst
      = .error .notImplemented)
  ∧ ((vaultGetKey (vaultStoreKey emptyVaultState 10 "u1" "s3cret" m1).2
        (vaultStoreKey emptyVaultState 10 "u1" "s3cret" m1).1).fst
      ≠ .ok "s3cret")
  ∧ ((envGetKey 1 defaultEnvCfg (envStoreKey defaultEnvCfg emptyEnvState 0 "u1" "s3cret" m1exp).2
        10 "u2" (envStoreKey defaultEnvCfg emptyEnvState 0 "u1" "s3cret" m1exp).1).map Prod.fst
      = some (.error (.expired "k1")))
  ∧ ((envGetKey 1 defaultEnvCfg (envStoreKey defaultEnvCfg emptyEnvState 0 "u1" "s3cret" m1exp).2
        10 "u2" (envStoreKey defaultEnvCfg emptyEnvState 0 "u1" "s3cret" m1exp).1).map Prod.fst
      ≠ some (.ok "s3cret")) := by
  refine ⟨rfl, by decide, by decide, by decide⟩

/-- C1, amended: for the environment-variable and encrypted-file
backends, storeKey(S, M) followed by getKey on the returned id
returns exactly S, provided M does not carry an expiresAt already in
the past while enforceExpiration is enabled nor a rotationDue already
in the past while autoRotate is enabled; the vault backend is
excluded because its placeholder getKey always throws. -/
theorem c1_roundtrip_amended (c : EnvProviderConfig) (o : EncryptedFileOptions)
    (se : EnvState) (sf : EncryptedFileState) (now₁ now₂ iv₁ iv₂ : Nat)
    (fr₁ fr₂ secret : String) (m : KeyMetadataOpt)
    (hexpE : (c.opts.enforceExpiration && datePassed m.expiresAt now₂) = false)
    (hrotE : (c.opts.autoRotate && datePassed m.rotationDue now₂) = false)
    (hexpF : (o.opts.enforceExpiration && datePassed m.expiresAt now₂) = false)
    (hrotF : (o.opts.autoRotate && datePassed m.rotationDue now₂) = false) :
    (envGetKey 1 c (envStoreKey c se now₁ fr₁ secret m).2 now₂ fr₂
       (envStoreKey c se now₁ fr₁ secret m).1).map Prod.fst = some (.ok secret)
  ∧ (efGetKey 1 o (efStoreKey o sf now₁ iv₁ fr₁ secret m).2 now₂ iv₂ fr₂
       (efStoreKey o sf now₁ iv₁ fr₁ secret m).1).map Prod.fst = some (.ok secret) := by
  constructor
  · rw [envGetKey_after_storeKey c se now₁ now₂ fr₁ fr₂ secret m hrotE]
    simp [hexpE]
  · rw [efGetKey_after_storeKey o sf now₁ now₂ iv₁ iv₂ fr₁ fr₂ secret m hrotF]
    simp [hexpF]

/-- C1, witness: the amended round-trip evaluated on a concrete
secret for both backends. -/
theorem c1_roundtrip_amended_witness :
    (envGetKey 1 defaultEnvCfg (envStoreKey defaultEnvCfg emptyEnvState 0 "u1" "s3cret" m1).2
       10 "u2" (envStoreKey defaultEnvCfg emptyEnvState 0 "u1" "s3cret" m1).1).map Prod.fst
      = some (.ok "s3cret")
  ∧ (efGetKey 1 fileOptsPw1 (efStoreKey fileOptsPw1 emptyFileState 0 7 "u1" "s3cret" m1).2
       10 8 "u2" (efStoreKey fileOptsPw1 emptyFileState 0 7 "u1" "s3cret" m1).1).map Prod.fst
      = some (.ok "s3cret") :=
  c1_roundtrip_amended defaultEnvCfg fileOptsPw1 emptyEnvState emptyFileState 0 10 7 8
    "u1" "u2" "s3cret" m1 (by decide) (by decide) (by decide) (by decide)

/-- C2: the claim's scenario never completes.  On both the env and
encrypted-file providers with autoRotate enabled, getKey on the key
k1 whose rotationDue (time 5) has passed at read time 10 does not
perform one rotation and return the rotated secret: getKey calls
rotateKey, whose first step is getKey on the same old keyId with its
rotationDue still due, so the two recurse forever; no fuel bound
makes the call return (and the read is re-issued against the old id,
not the new one). -/
theorem c2_autoRotate_never_returns (fuel : Nat) :
    envGetKey fuel arCfg arEnvState 10 "u" "k1" = none
  ∧ envRotateKey fuel arCfg arEnvState 10 "u" "k1" = none
  ∧ efGetKey fuel arFileOpts arFileState 10 8 "u" "k1" = none
  ∧ efRotateKey fuel arFileOpts arFileState 10 8 "u" "k1" = none := by
  induction fuel with
  | zero => exact ⟨rfl, rfl, rfl, rfl⟩
  | succ n ih =>
    obtain ⟨ihG, ihR, ihFG, ihFR⟩ := ih
    simp only [arCfg, arEnvState, arMeta, arFileOpts, arFileState, encrypt]
      at ihG ihR ihFG ihFR ⊢
    refine ⟨?_, ?_, ?_, ?_⟩
    · simp [envGetKey, envGetKeyMetadata, lookupA, setA, envLookup, datePassed, ihR]
    · simp [envRotateKey, envGetKeyMetadata, lookupA, setA, envLookup, datePassed, ihG]
    · simp [efGetKey, efGetKeyMetadata, lookupA, setA, datePassed, decrypt, ihFR]
    · simp [efRotateKey, efGetKeyMetadata, lookupA, setA, datePassed, decrypt, ihFG]

/-- C3: on the encrypted-file provider, getKey over an existing,
unexpired key file encrypted under the master key derived from one
password fails with the decryption error when the provider instance
holds the key derived from a different password over the same salt,
while a missing keyId fails with the Key-not-found error, and the two
error kinds are distinct. -/
theorem c3_decryption_vs_notfound (sf : EncryptedFileState) (o : EncryptedFileOptions)
    (p₁ p₂ salt : String) (stored : StoredEncryptedKey)
    (now iv : Nat) (fr kid missing : String)
    (hne : p₁ ≠ p₂)
    (henc : stored.blob.encKey = .derived p₁ salt)
    (ho : o.masterKey = .derived p₂ salt)
    (hfile : lookupA sf.files kid = some stored)
    (hexp : (o.opts.enforceExpiration && datePassed stored.metadata.expiresAt now) = false)
    (hrot : (o.opts.autoRotate && datePassed stored.metadata.rotationDue now) = false)
    (hmiss : lookupA sf.files missing = none) :
    (efGetKey 1 o sf now iv fr kid).map Prod.fst = some (.error .decryptionFailure)
  ∧ (efGetKey 1 o sf now iv fr missing).map Prod.fst = some (.error (.notFound missing))
  ∧ KeyError.decryptionFailure ≠ KeyError.notFound missing := by
  refine ⟨?_, ?_, by intro hc; cases hc⟩
  · have hdec : decrypt o.masterKey stored.blob = none := by
      simp [decrypt, henc, ho, hne]
    by_cases haud : o.opts.auditAccess = true <;>
      simp [efGetKey, hfile, hexp, hrot, haud, hdec]
  · simp [efGetKey, hmiss]

/-- C3, witness: the scenario of the spec, with the key stored under
the password correct-password and read back by an instance derived
from a different password over the same directory. -/
theorem c3_decryption_vs_notfound_witness :
    (efGetKey 1 fileOptsPw2 (efStoreKey fileOptsPw1 emptyFileState 0 7 "u1" "0xabc123" m1).2
       10 8 "u2" "k1").map Prod.fst = some (.error .decryptionFailure)
  ∧ (efGetKey 1 fileOptsPw2 (efStoreKey fileOptsPw1 emptyFileState 0 7 "u1" "0xabc123" m1).2
       10 8 "u2" "wallet-9").map Prod.fst = some (.error (.notFound "wallet-9"))
  ∧ KeyError.decryptionFailure ≠ KeyError.notFound "wallet-9" :=
  c3_decryption_vs_notfound
    (efStoreKey fileOptsPw1 emptyFileState 0 7 "u1" "0xabc123" m1).2 fileOptsPw2
    "correct-password" "other-password" "fingerprint-salt"
    { blob := encrypt fileOptsPw1.masterKey 7 "0xabc123",
      metadata := mkFullMetadata "k1" 0 m1 }
    10 8 "u2" "k1" "wallet-9"
    (by decide) (by decide) (by decide) (by decide) (by decide) (by decide) (by decide)

/-- C4: evaluation of EnvKeyProvider.rotateKey at a concrete stored
key k1.  Because storeKey receives the spread of the full existing
metadata, the stored copy keeps the old keyId, so rotateKey returns
k1 itself rather than a new id; and the final metadataMap write
rebuilds the tags from the pre-rotation tags, so the previousKeyId
lineage tag is absent while rotated and rotatedTo (pointing back at
k1) are present.  The claim's requirements that a new id is returned
and that getKeyMetadata(newId).tags.previousKeyId equals the old id
are therefore violated by the env provider. -/
theorem c4_env_rotate_reuses_id :
    ((envRotateKey 2 defaultEnvCfg plainEnvState 20 "uuid-new" "k1").map Prod.fst
      = some (.ok "k1"))
  ∧ ((envRotateKey 2 defaultEnvCfg plainEnvState 20 "uuid-new" "k1").map
       (fun r => (lookupA r.2.metadataMap "k1").map (fun md =>
         (tagGet (md.tags.getD []) "previousKeyId",
          tagGet (md.tags.getD []) "rotated",
          tagGet (md.tags.getD []) "rotatedTo")))
      = some (some (none, some "true", some "k1"))) := by
  exact ⟨by decide, by decide⟩

/-- C5, counterexample: the vault provider breaks the claim's "for
every provider".  After storing s3cret with keyId k1 and expiresAt 5,
reading k1 at time 10 fails with the placeholder error rather than
the Expired error, and it does not succeed when expiration would not
be enforced either, because the stub getKey never consults options or
metadata. -/
theorem c5_counterexample :
    ((vaultGetKey (vaultStoreKey emptyVaultState 0 "u1" "s3cret" m1exp).2 "k1").fst
      = .error .notImplemented)
  ∧ ((vaultGetKey (vaultStoreKey emptyVaultState 0 "u1" "s3cret" m1exp).2 "k1").fst
      ≠ .error (.expired "k1"))
  ∧ ((vaultGetKey (vaultStoreKey emptyVaultState 0 "u1" "s3cret" m1exp).2 "k1").fst
      ≠ .ok "s3cret") := by
  exact ⟨rfl, by decide, by decide⟩

/-- C5, amended: for the environment-variable and encrypted-file
providers, a key stored with expiresAt in the past makes getKey fail
with the Key-expired error when enforceExpiration is on and return
the stored secret when it is off (the auto-rotation policy not
firing, as with its default-off setting). -/
theorem c5_expiration_amended (c : EnvProviderConfig) (o : EncryptedFileOptions)
    (se : EnvState) (sf : EncryptedFileState) (now₁ now₂ iv₁ iv₂ e : Nat)
    (fr₁ fr₂ secret : String) (m : KeyMetadataOpt)
    (hm : m.expiresAt = some e) (he : e < now₂)
    (hrotE : (c.opts.autoRotate && datePassed m.rotationDue now₂) = false)
    (hrotF : (o.opts.autoRotate && datePassed m.rotationDue now₂) = false) :
    (envGetKey 1 c (envStoreKey c se now₁ fr₁ secret m).2 now₂ fr₂
       (envStoreKey c se now₁ fr₁ secret m).1).map Prod.fst
      = some (if c.opts.enforceExpiration
              then .error (.expired (envStoreKey c se now₁ fr₁ secret m).1)
              else .ok secret)
  ∧ (efGetKey 1 o (efStoreKey o sf now₁ iv₁ fr₁ secret m).2 now₂ iv₂ fr₂
       (efStoreKey o sf now₁ iv₁ fr₁ secret m).1).map Prod.fst
      = some (if o.opts.enforceExpiration
              then .error (.expired (efStoreKey o sf now₁ iv₁ fr₁ secret m).1)
              else .ok secret) := by
  have hp : datePassed m.expiresAt now₂ = true := by simp [datePassed, hm, he]
  constructor
  · rw [envGetKey_after_storeKey c se now₁ now₂ fr₁ fr₂ secret m hrotE]
    simp [hp]
  · rw [efGetKey_after_storeKey o sf now₁ now₂ iv₁ iv₂ fr₁ fr₂ secret m hrotF]
    simp [hp]

/-- C5, witness: the amended statement applied with enforcement on
(default options) and with enforcement off, on both providers. -/
theorem c5_expiration_amended_witness :
    ((envGetKey 1 defaultEnvCfg (envStoreKey defaultEnvCfg emptyEnvState 0 "u1" "s3cret" m1exp).2
        10 "u2" (envStoreKey defaultEnvCfg emptyEnvState 0 "u1" "s3cret" m1exp).1).map Prod.fst
      = some (if defaultEnvCfg.opts.enforceExpiration
              then .error (.expired (envStoreKey defaultEnvCfg emptyEnvState 0 "u1" "s3cret" m1exp).1)
              else .ok "s3cret"))
  ∧ ((efGetKey 1 fileOptsPw1 (efStoreKey fileOptsPw1 emptyFileState 0 7 "u1" "s3cret" m1exp).2
        10 8 "u2" (efStoreKey fileOptsPw1 emptyFileState 0 7 "u1" "s3cret" m1exp).1).map Prod.fst
      = some (if fileOptsPw1.opts.enforceExpiration
              then .error (.expired (efStoreKey fileOptsPw1 emptyFileState 0 7 "u1" "s3cret" m1exp).1)
              else .ok "s3cret"))
  ∧ ((envGetKey 1 noEnfEnvCfg (envStoreKey noEnfEnvCfg emptyEnvState 0 "u1" "s3cret" m1exp).2
        10 "u2" (envStoreKey noEnfEnvCfg emptyEnvState 0 "u1" "s3cret" m1exp).1).map Prod.fst
      = some (if noEnfEnvCfg.opts.enforceExpiration
              then .error (.expired (envStoreKey noEnfEnvCfg emptyEnvState 0 "u1" "s3cret" m1exp).1)
              else .ok "s3cret"))
  ∧ ((efGetKey 1 noEnfFileOpts (efStoreKey noEnfFileOpts emptyFileState 0 7 "u1" "s3cret" m1exp).2
        10 8 "u2" (efStoreKey noEnfFileOpts emptyFileState 0 7 "u1" "s3cret" m1exp).1).map Prod.fst
      = some (if noEnfFileOpts.opts.enforceExpiration
              then .error (.expired (efStoreKey noEnfFileOpts emptyFileState 0 7 "u1" "s3cret" m1exp).1)
              else .ok "s3cret")) := by
  have h₁ := c5_expiration_amended defaultEnvCfg fileOptsPw1 emptyEnvState emptyFileState
    0 10 7 8 5 "u1" "u2" "s3cret" m1exp (by decide) (by decide) (by decide) (by decide)
  have h₂ := c5_expiration_amended noEnfEnvCfg noEnfFileOpts emptyEnvState emptyFileState
    0 10 7 8 5 "u1" "u2" "s3cret" m1exp (by decide) (by decide) (by decide) (by decide)
  exact ⟨h₁.1, h₁.2, h₂.1, h₂.2⟩

/-- C6: evaluation of KeyManager.initialize.  The binding halves of
the claim hold: in production, wallet and signing rebind to the vault
kind while deployment and api keep the env kind; outside production
the constructor defaults (encrypted-file for wallet and signing, env
for deployment and api) are kept.  But the encrypted-file backend is
not configured with the given password: calling
initialize(hunter2, development) with MASTER_KEY_PASSWORD unset
forwards the empty string to the factory and discards the hunter2
argument. -/
theorem c6_initialize_eval :
    (providerTypeFor (keyManagerInitialize defaultKeyManager (some "hunter2") "production"
        emptyProcEnv) .wallet = .vault)
  ∧ (providerTypeFor (keyManagerInitialize defaultKeyManager (some "hunter2") "production"
        emptyProcEnv) .signing = .vault)
  ∧ (providerTypeFor (keyManagerInitialize defaultKeyManager (some "hunter2") "production"
        emptyProcEnv) .deployment = .env)
  ∧ (providerTypeFor (keyManagerInitialize defaultKeyManager (some "hunter2") "production"
        emptyProcEnv) .api = .env)
  ∧ (providerTypeFor (keyManagerInitialize defaultKeyManager (some "hunter2") "development"
        emptyProcEnv) .wallet = .encryptedFile)
  ∧ (providerTypeFor (keyManagerInitialize defaultKeyManager (some "hunter2") "development"
        emptyProcEnv) .signing = .encryptedFile)
  ∧ (providerTypeFor (keyManagerInitialize defaultKeyManager (some "hunter2") "development"
        emptyProcEnv) .deployment = .env)
  ∧ (providerTypeFor (keyManagerInitialize defaultKeyManager (some "hunter2") "development"
        emptyProcEnv) .api = .env)
  ∧ ((keyManagerInitialize defaultKeyManager (some "hunter2") "development"
        emptyProcEnv).factory.config.masterKeyPassword = some "")
  ∧ ((keyManagerInitialize defaultKeyManager (some "hunter2") "development"
        emptyProcEnv).factory.config.masterKeyPassword ≠ some "hunter2") := by
  refine ⟨by decide, by decide, by decide, by decide, by decide,
          by decide, by decide, by decide, by decide, by decide⟩

/-- C7: redaction.  The providers themselves dispatch no audit
entries during storeKey, getKey or rotateKey; the designated
key-access entry (logKeyAccess, as called around key operations)
carries only the fields and literals listed here, so a secret
occurring in none of them is not a substring of any string the entry
serializes; and in the configuration-change entries of updateOptions
a truthy remoteLogApiKey is replaced by the fixed placeholder, the
echoed options being independent of the api-key value. -/
theorem c7_redaction
    (timestamp sessionId source keyId actor operation secret : String)
    (keyType : KeyType) (success : Bool) (o : AuditLoggerOptions) (k : String)
    (h1 : occursIn secret timestamp = false) (h2 : occursIn secret sessionId = false)
    (h3 : occursIn secret source = false) (h4 : occursIn secret keyId = false)
    (h5 : occursIn secret actor = false) (h6 : occursIn secret operation = false)
    (h7 : occursIn secret (keyTypeString keyType) = false)
    (h8 : occursIn secret "key_access" = false) (h9 : occursIn secret "info" = false)
    (h10 : occursIn secret "warning" = false) (h11 : occursIn secret "success" = false)
    (h12 : occursIn secret "failure" = false) (h13 : occursIn secret "keyType" = false)
    (hk1 : o.remoteLogApiKey = some k) (hk2 : k ≠ "") :
    (∀ f ∈ entryStrings (logKeyAccessEntry timestamp sessionId source keyType keyId
         actor operation success), occursIn secret f = false)
  ∧ (redactOptions o).remoteLogApiKey = some "[REDACTED]"
  ∧ (∀ k₂, k₂ ≠ "" → redactOptions { o with remoteLogApiKey := some k₂ } = redactOptions o) := by
  refine ⟨?_, ?_, ?_⟩
  · intro f hf
    cases success <;>
      simp [entryStrings, logKeyAccessEntry, logLevelString] at hf <;>
      rcases hf with rfl | rfl | rfl | rfl | rfl | rfl | rfl | rfl | rfl | rfl | rfl <;>
      assumption
  · simp [redactOptions, redactedApiKey, hk1, hk2]
  · intro k₂ hne
    simp [redactOptions, redactedApiKey, hk1, hk2, hne]

/-- C7, witness: the redaction facts evaluated on a concrete entry
and concrete options holding a non-empty api key. -/
theorem c7_redaction_witness :
    (∀ f ∈ entryStrings (logKeyAccessEntry "2025-01-01T00:00:00Z" "sess-1" "server" .wallet
         "wallet-1" "alice" "key_read" true), occursIn "s3cretvalue" f = false)
  ∧ (redactOptions { remoteLogApiKey := some "api-token-1" }).remoteLogApiKey
      = some "[REDACTED]"
  ∧ (∀ k₂, k₂ ≠ "" →
       redactOptions { ({ remoteLogApiKey := some "api-token-1" } : AuditLoggerOptions)
                       with remoteLogApiKey := some k₂ }
         = redactOptions { remoteLogApiKey := some "api-token-1" }) :=
  c7_redaction "2025-01-01T00:00:00Z" "sess-1" "server" "wallet-1" "alice" "key_read"
    "s3cretvalue" .wallet true { remoteLogApiKey := some "api-token-1" } "api-token-1"
    (by decide) (by decide) (by decide) (by decide) (by decide) (by decide) (by decide)
    (by decide) (by decide) (by decide) (by decide) (by decide) (by decide)
    rfl (by decide)

/-- C8: in EncryptedFileKeyProvider.getKey with auditAccess on, the
access-metadata update is written to the key file before decryption
is attempted, so a read of an existing unexpired key that fails with
the decryption error still leaves the file with accessCount
incremented and lastAccessed set to the read time. -/
theorem c8_audit_persisted_before_decrypt (o : EncryptedFileOptions)
    (s : EncryptedFileState) (now iv : Nat) (fr kid : String)
    (stored : StoredEncryptedKey)
    (haud : o.opts.auditAccess = true)
    (hfile : lookupA s.files kid = some stored)
    (hexp : (o.opts.enforceExpiration && datePassed stored.metadata.expiresAt now) = false)
    (hrot : (o.opts.autoRotate && datePassed stored.metadata.rotationDue now) = false)
    (hdec : decrypt o.masterKey stored.blob = none) :
    (efGetKey 1 o s now iv fr kid).map (fun r => (r.1, lookupA r.2.files kid))
      = some (.error .decryptionFailure,
              some { stored with metadata :=
                { stored.metadata with
                  lastAccessed := some now,
                  accessCount := some (stored.metadata.accessCount.getD 0 + 1) } }) := by
  simp [efGetKey, hfile, hexp, hrot, haud, hdec, lookupA_setA_self]

/-- C8, witness: a key stored under one password and read by an
instance holding a different derived key fails to decrypt, yet the
file records accessCount 1 and lastAccessed 10. -/
theorem c8_audit_persisted_before_decrypt_witness :
    (efGetKey 1 fileOptsPw2 (efStoreKey fileOptsPw1 emptyFileState 0 7 "u1" "0xabc123" m1).2
        10 8 "u2" "k1").map
        (fun r => (r.1, lookupA r.2.files "k1"))
      = some (.error .decryptionFailure,
              some { blob := encrypt fileOptsPw1.masterKey 7 "0xabc123",
                     metadata := { keyId := "k1", createdAt := 0,
                                   lastAccessed := some 10, accessCount := some 1 } }) := by
  have h := c8_audit_persisted_before_decrypt fileOptsPw2
    (efStoreKey fileOptsPw1 emptyFileState 0 7 "u1" "0xabc123" m1).2 10 8 "u2" "k1"
    { blob := encrypt fileOptsPw1.masterKey 7 "0xabc123", metadata := mkFullMetadata "k1" 0 m1 }
    (by decide) (by decide) (by decide) (by decide) (by decide)
  simpa [mkFullMetadata, m1] using h

/-- C9: on the environment-variable and encrypted-file providers,
storeKey with a caller-supplied keyId that already holds a secret
succeeds (storeKey is total and raises no uniqueness error by
construction), returns that same keyId, and silently replaces the
stored secret and metadata, so a subsequent getKey returns the newly
stored secret. -/
theorem c9_store_overwrites (c : EnvProviderConfig) (o : EncryptedFileOptions)
    (se : EnvState) (sf : EncryptedFileState) (now₁ now₂ iv₁ iv₂ : Nat)
    (fr₁ fr₂ oldSecret newSecret kid : String) (oldStored : StoredEncryptedKey)
    (m : KeyMetadataOpt)
    (hkid : m.keyId = some kid) (hk : kid ≠ "")
    (holdE : lookupA se.keyMap kid = some oldSecret)
    (holdF : lookupA sf.files kid = some oldStored)
    (hexpE : (c.opts.enforceExpiration && datePassed m.expiresAt now₂) = false)
    (hrotE : (c.opts.autoRotate && datePassed m.rotationDue now₂) = false)
    (hexpF : (o.opts.enforceExpiration && datePassed m.expiresAt now₂) = false)
    (hrotF : (o.opts.autoRotate && datePassed m.rotationDue now₂) = false) :
    (envStoreKey c se now₁ fr₁ newSecret m).1 = kid
  ∧ (efStoreKey o sf now₁ iv₁ fr₁ newSecret m).1 = kid
  ∧ lookupA (envStoreKey c se now₁ fr₁ newSecret m).2.keyMap kid = some newSecret
  ∧ (lookupA (efStoreKey o sf now₁ iv₁ fr₁ newSecret m).2.files kid).map
      (fun st => st.blob.plaintext) = some newSecret
  ∧ (envGetKey 1 c (envStoreKey c se now₁ fr₁ newSecret m).2 now₂ fr₂ kid).map Prod.fst
      = some (.ok newSecret)
  ∧ (efGetKey 1 o (efStoreKey o sf now₁ iv₁ fr₁ newSecret m).2 now₂ iv₂ fr₂ kid).map Prod.fst
      = some (.ok newSecret) := by
  have hidE : (envStoreKey c se now₁ fr₁ newSecret m).1 = kid := by
    simp [envStoreKey, chooseKeyId, hkid, hk]
  have hidF : (efStoreKey o sf now₁ iv₁ fr₁ newSecret m).1 = kid := by
    simp [efStoreKey, chooseKeyId, hkid, hk]
  refine ⟨hidE, hidF, ?_, ?_, ?_, ?_⟩
  · simp [envStoreKey, chooseKeyId, hkid, hk, lookupA_setA_self]
  · simp [efStoreKey, chooseKeyId, hkid, hk, lookupA_setA_self, encrypt]
  · have h := envGetKey_after_storeKey c se now₁ now₂ fr₁ fr₂ newSecret m hrotE
    rw [hidE] at h
    simpa [hexpE] using h
  · have h := efGetKey_after_storeKey o sf now₁ now₂ iv₁ iv₂ fr₁ fr₂ newSecret m hrotF
    rw [hidF] at h
    simpa [hexpF] using h

/-- C9, witness: re-storing under the existing id k1 on both
providers replaces the old secret sek and oldsecret with newsecret. -/
theorem c9_store_overwrites_witness :
    (envStoreKey defaultEnvCfg plainEnvState 5 "u1" "newsecret" m1).1 = "k1"
  ∧ (efStoreKey fileOptsPw1 (efStoreKey fileOptsPw1 emptyFileState 0 7 "u0" "oldsecret" m1).2
       5 8 "u1" "newsecret" m1).1 = "k1"
  ∧ lookupA (envStoreKey defaultEnvCfg plainEnvState 5 "u1" "newsecret" m1).2.keyMap "k1"
      = some "newsecret"
  ∧ (lookupA (efStoreKey fileOptsPw1 (efStoreKey fileOptsPw1 emptyFileState 0 7 "u0" "oldsecret" m1).2
       5 8 "u1" "newsecret" m1).2.files "k1").map (fun st => st.blob.plaintext)
      = some "newsecret"
  ∧ (envGetKey 1 defaultEnvCfg (envStoreKey defaultEnvCfg plainEnvState 5 "u1" "newsecret" m1).2
       10 "u2" "k1").map Prod.fst = some (.ok "newsecret")
  ∧ (efGetKey 1 fileOptsPw1 (efStoreKey fileOptsPw1
       (efStoreKey fileOptsPw1 emptyFileState 0 7 "u0" "oldsecret" m1).2
       5 8 "u1" "newsecret" m1).2 10 9 "u2" "k1").map Prod.fst = some (.ok "newsecret") :=
  c9_store_overwrites defaultEnvCfg fileOptsPw1 plainEnvState
    (efStoreKey fileOptsPw1 emptyFileState 0 7 "u0" "oldsecret" m1).2
    5 10 8 9 "u1" "u2" "sek" "newsecret" "k1"
    { blob := encrypt fileOptsPw1.masterKey 7 "oldsecret", metadata := mkFullMetadata "k1" 0 m1 }
    m1 (by decide) (by decide) (by decide) (by decide) (by decide) (by decide)
    (by decide) (by decide)

/-- C10: KeyProviderFactory.updateConfig only replaces the
configuration object: the provider cache is untouched, and for every
kind already constructed before the update, a later getProvider
returns the identical cached instance (still carrying the
configuration it was built from) without rebuilding it. -/
theorem c10_updateConfig_frame (s : FactoryState) (u : FactoryConfigUpdate)
    (t : KeyProviderType) (p : ProviderInstance)
    (h : lookupP s.providers t = some p) :
    (updateConfig s u).providers = s.providers
  ∧ getProvider (updateConfig s u) t = (.ok p, updateConfig s u) := by
  refine ⟨rfl, ?_⟩
  simp [getProvider, updateConfig, h]

/-- C10, witness: after updating the master password, the cached env
provider instance built from the pre-update configuration is returned
unchanged. -/
theorem c10_updateConfig_frame_witness :
    (updateConfig factoryWithEnv cfgUpdate1).providers = factoryWithEnv.providers
  ∧ getProvider (updateConfig factoryWithEnv cfgUpdate1) .env
      = (.ok cachedEnvInstance, updateConfig factoryWithEnv cfgUpdate1) :=
  c10_updateConfig_frame factoryWithEnv cfgUpdate1 .env cachedEnvInstance (by decide)

end Fingerprint
